import Mathlib

/-!
Verification of the `virtual-py_detector` detection engine.

The engine (src/virtual-py_detector.py) is a set of ten host-inspection
probes aggregated by `virtualpydetector.detect`.  Each probe reads host
state through OS surfaces: spawning helper binaries (`subprocess.check_output`
with `timeout=3`), reading `/proc/cpuinfo`, Windows `ctypes` API calls,
file-existence tests, the parent process name, the process table and a
wall-clock timing loop.

The embedding makes the host state explicit as a `Host` record supplying the
outcome of every such OS interaction, and each probe becomes a pure function
`Host → Except PyError Bool`.  Python exception semantics are kept: each
`except` clause in the source catches exactly the listed exception classes,
and any other exception propagates as an `Except.error`.
-/

namespace VPD

/-- Outcome classes of `subprocess.check_output`: success with captured
output, `CalledProcessError` (helper exited nonzero), `TimeoutExpired`
(helper exceeded the `timeout=` window), or `FileNotFoundError` (the helper
binary does not exist on the host). -/
inductive SpawnErr
  | calledProcessError
  | timeoutExpired
  | fileNotFound
deriving DecidableEq

/-- Result of one `subprocess.check_output` invocation. -/
inductive SpawnResult
  | ok (out : String)
  | err (e : SpawnErr)
deriving DecidableEq

/-- Failure classes of `open("/proc/cpuinfo")`: the file may be absent
(`FileNotFoundError`) or unreadable (`PermissionError`). -/
inductive FileErr
  | fileNotFound
  | permissionError
deriving DecidableEq

/-- Failure classes of a `ctypes.windll` call: the API may be absent
(`AttributeError`) or fail (`OSError`). -/
inductive CtypesErr
  | attributeError
  | osError
deriving DecidableEq

/-- Failure classes of a psutil process lookup: the process may have exited
(`NoSuchProcess`) or deny introspection (`AccessDenied`). -/
inductive PsErr
  | noSuchProcess
  | accessDenied
deriving DecidableEq

/-- Python exceptions that are NOT caught by any handler in the source and
therefore can cross a probe boundary. -/
inductive PyError
  | fileNotFoundError
  | permissionError
deriving DecidableEq

/-- The host state visible to the detector: `platform.system()`, the outcome
of each OS interaction a probe may perform, and the wall-clock duration of
the timing loop.  `spawn` is keyed by the argument list and the `timeout=`
value passed to `subprocess.check_output`. -/
structure Host where
  system : String
  spawn : List String → Nat → SpawnResult
  cpuinfoLines : Except FileErr (List String)
  isProcessorFeaturePresent29 : Except CtypesErr Int
  isDebuggerPresent : Except CtypesErr Int
  pathExists : String → Bool
  parentName : Except PsErr String
  processNames : List (Except PsErr String)
  timingElapsed : ℚ

instance {ε α : Type} [DecidableEq ε] [DecidableEq α] : DecidableEq (Except ε α) := fun a b =>
  match a, b with
  | .error x, .error y =>
    if h : x = y then .isTrue (by simp [h]) else .isFalse (by simp [h])
  | .error _, .ok _ => .isFalse (by simp)
  | .ok _, .error _ => .isFalse (by simp)
  | .ok x, .ok y =>
    if h : x = y then .isTrue (by simp [h]) else .isFalse (by simp [h])

/-- Bool test of whether the char list `sub` is an initial segment of `hay`. -/
def charsStartWith : List Char → List Char → Bool
  | [], _ => true
  | _ :: _, [] => false
  | a :: as, b :: bs => a == b && charsStartWith as bs

/-- Python's `sub in hay` substring containment on strings. -/
def strHasSub (hay sub : String) : Bool :=
  let hs := hay.data
  (List.range (hs.length + 1)).any (fun i => charsStartWith sub.data (hs.drop i))

/-- Python's `str.lower()` (ASCII case folding, per character). -/
def pyLower (s : String) : String := String.mk (s.data.map Char.toLower)

/-- Substrings whose presence in the model string marks a VM, from
`VMChecks.check_vm_hardware`. -/
def vmModelMarkers : List String := ["Virtual", "VMware", "VirtualBox", "Hyper-V", "QEMU"]

/-- VMChecks.check_vm_hardware: on Windows spawn
`wmic computersystem get model`, on macOS spawn `sysctl hw.model`, and test
the output for VM vendor markers; `CalledProcessError` and `TimeoutExpired`
are caught and yield `False`; other systems yield `False` directly. -/
def check_vm_hardware (h : Host) : Except PyError Bool :=
  if h.system = "Windows" then
    match h.spawn ["wmic", "computersystem", "get", "model"] 3 with
    | .ok out => .ok (vmModelMarkers.any (fun vm => strHasSub out vm))
    | .err .calledProcessError => .ok false
    | .err .timeoutExpired => .ok false
    | .err .fileNotFound => .error .fileNotFoundError
  else if h.system = "Darwin" then
    match h.spawn ["sysctl", "hw.model"] 3 with
    | .ok out => .ok (strHasSub out "VMware" || strHasSub out "VirtualBox")
    | .err .calledProcessError => .ok false
    | .err .timeoutExpired => .ok false
    | .err .fileNotFound => .error .fileNotFoundError
  else
    .ok false

/-- The six MAC OUI strings of the alternation in the regular expression of
`VMChecks.check_mac_address`. -/
def macOuiList : List String :=
  ["00:05:69", "00:0C:29", "00:50:56", "00:1C:14", "00:03:FF", "00:05:00"]

/-- VMChecks.check_mac_address: spawn `getmac` on Windows and `ifconfig` on
every other system, then search the output for one of the six OUI literals;
`CalledProcessError` and `TimeoutExpired` are caught and yield `False`. -/
def check_mac_address (h : Host) : Except PyError Bool :=
  match h.spawn [if h.system ≠ "Windows" then "ifconfig" else "getmac"] 3 with
  | .ok out => .ok (macOuiList.any (fun p => strHasSub out p))
  | .err .calledProcessError => .ok false
  | .err .timeoutExpired => .ok false
  | .err .fileNotFound => .error .fileNotFoundError

/-- HelperFunctions.check_paths_exist: `any(os.path.exists(path) ...)`. -/
def check_paths_exist (h : Host) (paths : List String) : Bool :=
  paths.any h.pathExists

/-- The VM artifact install paths of `VMChecks.check_vm_artifacts`. -/
def vm_paths : List String :=
  ["/Applications/VMware Tools",
   "/Applications/VirtualBox.app",
   "C:\\Program Files\\VMware\\VMware Tools",
   "C:\\Program Files\\Oracle\\VirtualBox Guest Additions"]

/-- VMChecks.check_vm_artifacts. -/
def check_vm_artifacts (h : Host) : Except PyError Bool :=
  .ok (check_paths_exist h vm_paths)

/-- The VirtualBox driver file names of `VMChecks.check_virtualbox_drivers`. -/
def vbox_driver_names : List String := ["VBoxGuest.sys", "VBoxMouse.sys", "VBoxSF.sys"]

/-- VMChecks.check_virtualbox_drivers: `False` off Windows, else test the
three driver paths. -/
def check_virtualbox_drivers (h : Host) : Except PyError Bool :=
  if h.system ≠ "Windows" then .ok false
  else .ok (check_paths_exist h
    (vbox_driver_names.map (fun d => "C:\\Windows\\System32\\drivers\\" ++ d)))

/-- VMChecks.check_cpu_features: on Linux read `/proc/cpuinfo` and look for a
`hypervisor` line, catching only `FileNotFoundError`; on macOS spawn
`sysctl machdep.cpu.features` and look for `VMM`, catching
`CalledProcessError` and `TimeoutExpired`; `False` elsewhere. -/
def check_cpu_features (h : Host) : Except PyError Bool :=
  if h.system = "Linux" then
    match h.cpuinfoLines with
    | .ok lines => .ok (lines.any (fun line => strHasSub line "hypervisor"))
    | .error .fileNotFound => .ok false
    | .error .permissionError => .error .permissionError
  else if h.system = "Darwin" then
    match h.spawn ["sysctl", "machdep.cpu.features"] 3 with
    | .ok out => .ok (strHasSub out "VMM")
    | .err .calledProcessError => .ok false
    | .err .timeoutExpired => .ok false
    | .err .fileNotFound => .error .fileNotFoundError
  else
    .ok false

/-- DebuggerChecks.check_hypervisor: on Windows
`ctypes.windll.kernel32.IsProcessorFeaturePresent(29)` with `AttributeError`
and `OSError` caught; on macOS spawn `sysctl kern.hv_support` and test for a
`1` in the output; `False` elsewhere. -/
def check_hypervisor (h : Host) : Except PyError Bool :=
  if h.system = "Windows" then
    match h.isProcessorFeaturePresent29 with
    | .ok v => .ok (v != 0)
    | .error _ => .ok false
  else if h.system = "Darwin" then
    match h.spawn ["sysctl", "kern.hv_support"] 3 with
    | .ok out => .ok (strHasSub out "1")
    | .err .calledProcessError => .ok false
    | .err .timeoutExpired => .ok false
    | .err .fileNotFound => .error .fileNotFoundError
  else
    .ok false

/-- The sandbox artifact paths of `DebuggerChecks.check_sandbox_files`. -/
def sandbox_files : List String :=
  ["/Applications/WindowsSandbox.app",
   "C:\\Program Files\\WindowsApps\\Microsoft.WindowsSandbox_"]

/-- DebuggerChecks.check_sandbox_files. -/
def check_sandbox_files (h : Host) : Except PyError Bool :=
  .ok (check_paths_exist h sandbox_files)

/-- The debugger parent-process names of `DebuggerChecks.detect_debugger`. -/
def debugger_names : List String := ["lldb", "gdb"]

/-- DebuggerChecks.detect_debugger: on Windows
`ctypes.windll.kernel32.IsDebuggerPresent()` with `AttributeError` and
`OSError` caught; on macOS and Linux compare the lowercased parent process
name with `lldb`/`gdb`, catching `NoSuchProcess` and `AccessDenied`;
`False` elsewhere. -/
def detect_debugger (h : Host) : Except PyError Bool :=
  if h.system = "Windows" then
    match h.isDebuggerPresent with
    | .ok v => .ok (v != 0)
    | .error _ => .ok false
  else if h.system = "Darwin" ∨ h.system = "Linux" then
    match h.parentName with
    | .ok name => .ok (debugger_names.contains (pyLower name))
    | .error _ => .ok false
  else
    .ok false

/-- Iteration count of the timing loop in `DebuggerChecks.anti_timing_check`. -/
def timingIterations : Nat := 1000000

/-- Threshold of `DebuggerChecks.anti_timing_check` (`elapsed > 0.5`). -/
def timingThreshold : ℚ := mkRat 1 2

/-- DebuggerChecks.anti_timing_check: signal iff the measured wall-clock
duration of the fixed loop exceeds the threshold. -/
def anti_timing_check (h : Host) : Except PyError Bool :=
  .ok (decide (h.timingElapsed > timingThreshold))

/-- The process denylist of `ProcessChecks.detect_suspicious_processes`. -/
def suspicious_processes : List String :=
  ["vmtoolsd", "vboxservice", "wireshark", "fiddler", "sandboxie", "processhacker"]

/-- The per-process comparison `is_suspicious` of
`ProcessChecks.detect_suspicious_processes`: lowercase the reported name and
test set membership; `NoSuchProcess` and `AccessDenied` during the name
lookup are caught and count as not matched. -/
def is_suspicious : Except PsErr String → Bool
  | .ok name => suspicious_processes.contains (pyLower name)
  | .error _ => false

/-- ProcessChecks.detect_suspicious_processes: `any` of the per-process
comparisons over the enumerated process list. -/
def detect_suspicious_processes (h : Host) : Except PyError Bool :=
  .ok (h.processNames.any is_suspicious)

/-- Names for the ten probes, in the order they appear in the `checks` list
of `virtualpydetector.detect`. -/
inductive ProbeId
  | vmHardware
  | macAddress
  | vmArtifacts
  | vboxDrivers
  | cpuFeatures
  | hypervisor
  | sandboxFiles
  | debugger
  | timing
  | suspiciousProcs
deriving DecidableEq

/-- The probe associated with each name. -/
def probeOf : ProbeId → Host → Except PyError Bool
  | .vmHardware => check_vm_hardware
  | .macAddress => check_mac_address
  | .vmArtifacts => check_vm_artifacts
  | .vboxDrivers => check_virtualbox_drivers
  | .cpuFeatures => check_cpu_features
  | .hypervisor => check_hypervisor
  | .sandboxFiles => check_sandbox_files
  | .debugger => detect_debugger
  | .timing => anti_timing_check
  | .suspiciousProcs => detect_suspicious_processes

/-- The evaluation order of the `checks` list in `virtualpydetector.detect`. -/
def probeOrder : List ProbeId :=
  [.vmHardware, .macAddress, .vmArtifacts, .vboxDrivers, .cpuFeatures,
   .hypervisor, .sandboxFiles, .debugger, .timing, .suspiciousProcs]

/-- Sequential evaluation of a probe list with Python exception semantics:
the probes are invoked left to right; the first probe that raises aborts the
evaluation (the remaining probes are not invoked) and the exception
propagates.  The first component is the trace of probes actually invoked. -/
def runProbes (h : Host) : List ProbeId → List ProbeId × Except PyError (List Bool)
  | [] => ([], .ok [])
  | p :: ps =>
    match probeOf p h with
    | .error e => ([p], .error e)
    | .ok b =>
      match runProbes h ps with
      | (tr, .error e) => (p :: tr, .error e)
      | (tr, .ok bs) => (p :: tr, .ok (b :: bs))

/-- The aggregation `any(checks)` of `virtualpydetector.detect`. -/
def aggregate (bs : List Bool) : Bool := bs.any id

/-- detect() restricted to a given probe list. -/
def detectOn (h : Host) (ps : List ProbeId) : Except PyError Bool :=
  (runProbes h ps).2.map aggregate

/-- virtualpydetector.detect: build the list of the ten probe results and
fold it with `any`. -/
def detect (h : Host) : Except PyError Bool := detectOn h probeOrder

/-- The value of a probe on hosts where it does not raise. -/
def probeVal (h : Host) (p : ProbeId) : Bool :=
  match probeOf p h with
  | .ok b => b
  | .error _ => false

/-- A benign reference host: Linux, every helper spawn exits nonzero, empty
cpuinfo, no interesting paths, no parent process, empty process table,
instant timing loop. -/
def baseHost : Host where
  system := "Linux"
  spawn := fun _ _ => .err .calledProcessError
  cpuinfoLines := .ok []
  isProcessorFeaturePresent29 := .ok 0
  isDebuggerPresent := .ok 0
  pathExists := fun _ => false
  parentName := .error .noSuchProcess
  processNames := []
  timingElapsed := 0

/-- A Windows host on which the `wmic` helper binary is absent. -/
def hWinNoWmic : Host :=
  { baseHost with system := "Windows", spawn := fun _ _ => .err .fileNotFound }

/-- A Linux host on which the `ifconfig` helper binary is absent. -/
def hNoIfconfig : Host :=
  { baseHost with spawn := fun _ _ => .err .fileNotFound }

/-- A host with an operating-system identifier outside every branch of every
probe. -/
def hPlan9 : Host := { baseHost with system := "Plan9" }

/-- A host on which every helper spawn exceeds its timeout window. -/
def hTimeoutAll : Host :=
  { baseHost with spawn := fun _ _ => .err .timeoutExpired }

/-- A host whose process table reports one process named `VMTOOLSD.EXE`. -/
def hVmtoolsdExe : Host :=
  { baseHost with processNames := [.ok "VMTOOLSD.EXE"] }

/-- A host whose process table reports one process named `VMTOOLSD`. -/
def hVmtoolsd : Host :=
  { baseHost with processNames := [.ok "VMTOOLSD"] }

/-- A host whose process table reports one process named `vmtoolsd`. -/
def hDetected : Host :=
  { baseHost with processNames := [.ok "vmtoolsd"] }

/-- Network-tool output rendering a VMware MAC with lowercase hex letters. -/
def macOutLower : String := "en0: ether 00:0c:29:aa:bb:cc"

/-- Network-tool output rendering the same MAC with the uppercase OUI. -/
def macOutUpper : String := "en0: ether 00:0C:29:aa:bb:cc"

/-- Network-tool output rendering an all-digit VMware OUI; the string is its
own lowercase rendering. -/
def macOutDigits : String := "eth0: ether 00:05:69:ab:cd:ef"

/-- A host whose network tool prints `macOutLower`. -/
def hMacLower : Host := { baseHost with spawn := fun _ _ => .ok macOutLower }

/-- A host whose network tool prints `macOutUpper`. -/
def hMacUpper : Host := { baseHost with spawn := fun _ _ => .ok macOutUpper }

/-- A host whose network tool prints `macOutDigits`. -/
def hMacDigits : Host := { baseHost with spawn := fun _ _ => .ok macOutDigits }

/-- A host on which the timing loop completes in 0.001 time units. -/
def hFast : Host := { baseHost with timingElapsed := mkRat 1 1000 }

/-- A host with a two-entry process table, for scheduling-independence. -/
def hTwoProcs : Host :=
  { baseHost with processNames := [.ok "alpha", .ok "beta"] }

/-- The same two process-table entries in the opposite completion order. -/
def twoProcsSwapped : List (Except PsErr String) := [.ok "beta", .ok "alpha"]

/-- The process-table entries of `hTwoProcs` in enumeration order. -/
def twoProcsInOrder : List (Except PsErr String) := [.ok "alpha", .ok "beta"]

/-- Bool test of whether an `Except` value is a normal return. -/
def isOkB {ε α : Type} : Except ε α → Bool
  | .ok _ => true
  | .error _ => false

theorem exists_ok_of_isOkB {ε α : Type} {X : Except ε α} (hX : isOkB X = true) :
    ∃ b, X = .ok b := by
  cases X with
  | ok b => exact ⟨b, rfl⟩
  | error e => simp [isOkB] at hX

theorem any_of_perm {α : Type} (f : α → Bool) {l₁ l₂ : List α} (hp : l₁.Perm l₂) :
    l₁.any f = l₂.any f := by
  cases hb : l₂.any f with
  | true =>
    rw [List.any_eq_true] at hb ⊢
    obtain ⟨x, hx, hfx⟩ := hb
    exact ⟨x, hp.mem_iff.mpr hx, hfx⟩
  | false =>
    rw [List.any_eq_false] at hb ⊢
    intro x hx
    exact hb x (hp.mem_iff.mp hx)

theorem mem_of_charsStartWith :
    ∀ (a b : List Char), charsStartWith a b = true → ∀ c ∈ a, c ∈ b := by
  intro a
  induction a with
  | nil => intro b _ c hc; cases hc
  | cons x xs ih =>
    intro b hcs c hc
    cases b with
    | nil => simp [charsStartWith] at hcs
    | cons y ys =>
      simp only [charsStartWith, Bool.and_eq_true, beq_iff_eq] at hcs
      obtain ⟨rfl, hrest⟩ := hcs
      rcases List.mem_cons.mp hc with rfl | hc2
      · exact List.mem_cons.mpr (.inl rfl)
      · exact List.mem_cons.mpr (.inr (ih ys hrest c hc2))

theorem hasSub_mem (hay sub : String) (hs : strHasSub hay sub = true) :
    ∀ c ∈ sub.data, c ∈ hay.data := by
  intro c hc
  simp only [strHasSub, List.any_eq_true, List.mem_range] at hs
  obtain ⟨i, _, hstart⟩ := hs
  exact List.mem_of_mem_drop (mem_of_charsStartWith sub.data (hay.data.drop i) hstart c hc)

theorem probeOf_eq_val (h : Host) (p : ProbeId) (hb : ∃ b, probeOf p h = .ok b) :
    probeOf p h = .ok (probeVal h p) := by
  obtain ⟨b, hb⟩ := hb
  simp [probeVal, hb]

theorem runProbes_of_ok (h : Host) :
    ∀ l : List ProbeId, (∀ p ∈ l, ∃ b, probeOf p h = .ok b) →
      runProbes h l = (l, .ok (l.map (probeVal h))) := by
  intro l
  induction l with
  | nil => intro _; rfl
  | cons p ps ih =>
    intro hl
    have hp := probeOf_eq_val h p (hl p (by simp))
    have ihh := ih (fun q hq => hl q (by simp [hq]))
    simp [runProbes, hp, ihh]

theorem detectOn_of_ok (h : Host) (l : List ProbeId)
    (hl : ∀ p ∈ l, ∃ b, probeOf p h = .ok b) :
    detectOn h l = .ok (l.any (probeVal h)) := by
  have hmap : ∀ l' : List ProbeId, (l'.map (probeVal h)).any id = l'.any (probeVal h) := by
    intro l'
    induction l' with
    | nil => rfl
    | cons a as ih => simp [List.any_cons, ih]
  simp only [detectOn, runProbes_of_ok h l hl, Except.map, aggregate, hmap]

theorem detect_of_ok (h : Host) (hok : ∀ p : ProbeId, ∃ b, probeOf p h = .ok b) :
    detect h = .ok (probeOrder.any (probeVal h)) :=
  detectOn_of_ok h probeOrder (fun p _ => hok p)

theorem mem_probeOrder (p : ProbeId) : p ∈ probeOrder := by
  cases p <;> simp [probeOrder]

theorem count_probeOrder (p : ProbeId) : probeOrder.count p = 1 := by
  cases p <;> decide

/-- Totality of the probe set on hosts free of the two uncaught failure
classes: every probe returns a value when no helper spawn fails with
`FileNotFoundError` and the cpuinfo read does not fail with
`PermissionError`. -/
theorem probes_total (h : Host)
    (hs : ∀ c : List String, h.spawn c 3 ≠ .err .fileNotFound)
    (hc : h.cpuinfoLines ≠ .error .permissionError) :
    ∀ p : ProbeId, ∃ b, probeOf p h = .ok b := by
  have hspawn : ∀ c : List String,
      (∃ out, h.spawn c 3 = .ok out) ∨ h.spawn c 3 = .err .calledProcessError ∨
        h.spawn c 3 = .err .timeoutExpired := by
    intro c
    cases hsp : h.spawn c 3 with
    | ok out => exact .inl ⟨out, rfl⟩
    | err e =>
      cases e with
      | calledProcessError => exact .inr (.inl rfl)
      | timeoutExpired => exact .inr (.inr rfl)
      | fileNotFound => exact absurd hsp (hs c)
  intro p
  apply exists_ok_of_isOkB
  cases p
  case vmHardware =>
    by_cases hw : h.system = "Windows"
    · rcases hspawn ["wmic", "computersystem", "get", "model"] with ⟨out, hsp⟩ | hsp | hsp <;>
        simp [probeOf, check_vm_hardware, hw, hsp, isOkB]
    · by_cases hd : h.system = "Darwin"
      · rcases hspawn ["sysctl", "hw.model"] with ⟨out, hsp⟩ | hsp | hsp <;>
          simp [probeOf, check_vm_hardware, hw, hd, hsp, isOkB]
      · simp [probeOf, check_vm_hardware, hw, hd, isOkB]
  case macAddress =>
    rcases hspawn [if h.system = "Windows" then "getmac" else "ifconfig"] with
      ⟨out, hsp⟩ | hsp | hsp <;> simp [probeOf, check_mac_address, hsp, isOkB]
  case vmArtifacts => simp [probeOf, check_vm_artifacts, isOkB]
  case vboxDrivers =>
    by_cases hw : h.system = "Windows" <;> simp [probeOf, check_virtualbox_drivers, hw, isOkB]
  case cpuFeatures =>
    by_cases hl : h.system = "Linux"
    · cases hcpu : h.cpuinfoLines with
      | ok lines => simp [probeOf, check_cpu_features, hl, hcpu, isOkB]
      | error e =>
        cases e with
        | fileNotFound => simp [probeOf, check_cpu_features, hl, hcpu, isOkB]
        | permissionError => exact absurd hcpu hc
    · by_cases hd : h.system = "Darwin"
      · rcases hspawn ["sysctl", "machdep.cpu.features"] with ⟨out, hsp⟩ | hsp | hsp <;>
          simp [probeOf, check_cpu_features, hl, hd, hsp, isOkB]
      · simp [probeOf, check_cpu_features, hl, hd, isOkB]
  case hypervisor =>
    by_cases hw : h.system = "Windows"
    · cases hv : h.isProcessorFeaturePresent29 <;>
        simp [probeOf, check_hypervisor, hw, hv, isOkB]
    · by_cases hd : h.system = "Darwin"
      · rcases hspawn ["sysctl", "kern.hv_support"] with ⟨out, hsp⟩ | hsp | hsp <;>
          simp [probeOf, check_hypervisor, hw, hd, hsp, isOkB]
      · simp [probeOf, check_hypervisor, hw, hd, isOkB]
  case sandboxFiles => simp [probeOf, check_sandbox_files, isOkB]
  case debugger =>
    by_cases hw : h.system = "Windows"
    · cases hv : h.isDebuggerPresent <;> simp [probeOf, detect_debugger, hw, hv, isOkB]
    · by_cases hdl : h.system = "Darwin" ∨ h.system = "Linux"
      · cases hv : h.parentName <;> simp [probeOf, detect_debugger, hw, hdl, hv, isOkB]
      · simp [probeOf, detect_debugger, hw, hdl, isOkB]
  case timing => simp [probeOf, anti_timing_check, isOkB]
  case suspiciousProcs => simp [probeOf, detect_suspicious_processes, isOkB]

/-- C1 counterexample: on a Windows host where the `wmic` helper binary is
absent, the first probe raises `FileNotFoundError`, so `detect()` aborts
without invoking the remaining nine probes — the MAC-address probe is
invoked zero times, not once — and propagates the exception instead of
returning a verdict. -/
theorem detect_aborts_on_missing_helper :
    (runProbes hWinNoWmic probeOrder).1.count .macAddress = 0 ∧
    detect hWinNoWmic = .error .fileNotFoundError := by
  exact ⟨by decide, by decide⟩

/-- C1 (amended): on every host state on which no probe raises, `detect()`
invokes each of the ten registered probes exactly once, returns `true` iff
at least one probe returned `true`, and the verdict is unchanged under any
permutation of the probe evaluation order; on host states where a probe
raises, `detect()` stops at the first raising probe and propagates the
exception instead of returning a verdict. -/
theorem detect_invokes_all_probes_once (h : Host)
    (hok : ∀ p : ProbeId, ∃ b, probeOf p h = .ok b) :
    ((runProbes h probeOrder).1 = probeOrder ∧
      ∀ p : ProbeId, (runProbes h probeOrder).1.count p = 1) ∧
    (detect h = .ok true ↔ ∃ p : ProbeId, probeOf p h = .ok true) ∧
    (∀ l : List ProbeId, l.Perm probeOrder → detectOn h l = detect h) := by
  have hrun := runProbes_of_ok h probeOrder (fun p _ => hok p)
  refine ⟨⟨by rw [hrun], fun p => by rw [hrun]; exact count_probeOrder p⟩, ?_, ?_⟩
  · rw [detect_of_ok h hok]
    simp only [Except.ok.injEq, List.any_eq_true]
    constructor
    · rintro ⟨p, _, hp⟩
      exact ⟨p, by rw [probeOf_eq_val h p (hok p), hp]⟩
    · rintro ⟨p, hp⟩
      exact ⟨p, mem_probeOrder p, by simp [probeVal, hp]⟩
  · intro l hl
    rw [detectOn_of_ok h l (fun p _ => hok p), detect_of_ok h hok,
      any_of_perm (probeVal h) hl]

/-- C1 amended-theorem witness at the benign reference host. -/
theorem detect_invokes_all_probes_once_witness :
    (runProbes baseHost probeOrder).1 = probeOrder :=
  (detect_invokes_all_probes_once baseHost
    (fun p => ⟨probeVal baseHost p, by cases p <;> decide⟩)).1.1

/-- C2 counterexample: the MAC-address probe's helper binary (`ifconfig`)
being absent is an operational failure of its underlying system call, yet
the probe raises `FileNotFoundError` — the failure is not converted to
`NoSignal` and the exception crosses the probe boundary to the caller of
`detect()`. -/
theorem mac_probe_exception_escapes :
    check_mac_address hNoIfconfig = .error .fileNotFoundError ∧
    detect hNoIfconfig = .error .fileNotFoundError := by
  exact ⟨by decide, by decide⟩

/-- C2 (amended): each probe converts to `NoSignal` exactly the failures its
handler lists — helper exit with nonzero status or timeout for subprocess
calls, a missing `/proc/cpuinfo` for the Linux CPU check, an absent or
failing `ctypes` API, and a vanished or access-denied psutil process — and
on host states whose failures stay within those lists no exception crosses
any probe boundary; a missing helper binary or a permission error reading
`/proc/cpuinfo` is not caught and propagates. -/
theorem probe_failure_containment (h : Host)
    (hs : ∀ c : List String, h.spawn c 3 ≠ .err .fileNotFound)
    (hc : h.cpuinfoLines ≠ .error .permissionError) :
    (∀ p : ProbeId, ∃ b, probeOf p h = .ok b) ∧
    ((∀ c : List String, ∃ e, h.spawn c 3 = .err e) →
      check_vm_hardware h = .ok false ∧ check_mac_address h = .ok false ∧
      (h.system = "Darwin" →
        check_cpu_features h = .ok false ∧ check_hypervisor h = .ok false)) ∧
    (h.system = "Linux" → h.cpuinfoLines = .error .fileNotFound →
      check_cpu_features h = .ok false) ∧
    (h.system = "Windows" → ∀ e, h.isProcessorFeaturePresent29 = .error e →
      check_hypervisor h = .ok false) ∧
    (h.system ≠ "Windows" → ∀ e, h.parentName = .error e →
      detect_debugger h = .ok false) := by
  refine ⟨probes_total h hs hc, ?_, ?_, ?_, ?_⟩
  · intro hfail
    have hcase : ∀ c : List String, h.spawn c 3 = .err .calledProcessError ∨
        h.spawn c 3 = .err .timeoutExpired := by
      intro c
      obtain ⟨e, he⟩ := hfail c
      cases e with
      | calledProcessError => exact .inl he
      | timeoutExpired => exact .inr he
      | fileNotFound => exact absurd he (hs c)
    refine ⟨?_, ?_, fun hd => ⟨?_, ?_⟩⟩
    · by_cases hw : h.system = "Windows"
      · rcases hcase ["wmic", "computersystem", "get", "model"] with hsp | hsp <;>
          simp [check_vm_hardware, hw, hsp]
      · by_cases hd : h.system = "Darwin"
        · rcases hcase ["sysctl", "hw.model"] with hsp | hsp <;>
            simp [check_vm_hardware, hw, hd, hsp]
        · simp [check_vm_hardware, hw, hd]
    · rcases hcase [if h.system = "Windows" then "getmac" else "ifconfig"] with hsp | hsp <;>
        simp [check_mac_address, hsp]
    · have hl : ¬ h.system = "Linux" := by rw [hd]; decide
      rcases hcase ["sysctl", "machdep.cpu.features"] with hsp | hsp <;>
        simp [check_cpu_features, hl, hd, hsp]
    · have hw : ¬ h.system = "Windows" := by rw [hd]; decide
      rcases hcase ["sysctl", "kern.hv_support"] with hsp | hsp <;>
        simp [check_hypervisor, hw, hd, hsp]
  · intro hl hcpu
    simp [check_cpu_features, hl, hcpu]
  · intro hw e he
    simp [check_hypervisor, hw, he]
  · intro hw e he
    by_cases hdl : h.system = "Darwin" ∨ h.system = "Linux" <;>
      simp [detect_debugger, hw, hdl, he]

/-- C2 amended-theorem witness: on the benign reference host every helper
spawn fails with `CalledProcessError` and the MAC probe yields `NoSignal`. -/
theorem probe_failure_containment_witness :
    check_mac_address baseHost = .ok false :=
  ((probe_failure_containment baseHost (fun c => by simp [baseHost]) (by decide)).2.1
    (fun c => ⟨.calledProcessError, rfl⟩)).2.1

/-- C3: each probe that dispatches on the operating-system identifier
(`check_vm_hardware`, `check_virtualbox_drivers`, `check_cpu_features`,
`check_hypervisor`, `detect_debugger`) returns `False` on every host whose
identifier matches none of its implemented branches — for every such host
state, regardless of the outcome any OS call would have had, so no OS call
is consulted and nothing is raised. -/
theorem dispatch_totality (h : Host) :
    (h.system ≠ "Windows" → h.system ≠ "Darwin" → check_vm_hardware h = .ok false) ∧
    (h.system ≠ "Windows" → check_virtualbox_drivers h = .ok false) ∧
    (h.system ≠ "Linux" → h.system ≠ "Darwin" → check_cpu_features h = .ok false) ∧
    (h.system ≠ "Windows" → h.system ≠ "Darwin" → check_hypervisor h = .ok false) ∧
    (h.system ≠ "Windows" → h.system ≠ "Darwin" → h.system ≠ "Linux" →
      detect_debugger h = .ok false) := by
  refine ⟨fun hw hd => ?_, fun hw => ?_, fun hl hd => ?_, fun hw hd => ?_,
    fun hw hd hl => ?_⟩
  · simp [check_vm_hardware, hw, hd]
  · simp [check_virtualbox_drivers, hw]
  · simp [check_cpu_features, hl, hd]
  · simp [check_hypervisor, hw, hd]
  · simp [detect_debugger, hw, hd, hl]

/-- C3 witness at a host whose identifier (`Plan9`) matches no branch. -/
theorem dispatch_totality_witness : check_vm_hardware hPlan9 = .ok false :=
  (dispatch_totality hPlan9).1 (by decide) (by decide)

/-- C4 counterexample: the code performs no extension stripping or
normalization, so an enumerated process whose reported name is
`VMTOOLSD.EXE` does not match the denylist entry `vmtoolsd`: the comparison
returns not-matched, the scanner probe reports `NoSignal`, and `detect()`
returns `false`. -/
theorem no_extension_normalization :
    is_suspicious (.ok "VMTOOLSD.EXE") = false ∧
    detect_suspicious_processes hVmtoolsdExe = .ok false ∧
    detect hVmtoolsdExe = .ok false := by
  exact ⟨by decide, by decide, by decide⟩

/-- C4 (amended): denylist matching is case-insensitive and exact on the
reported process name with no extension stripping: the comparison depends
only on the lowercased name, a process whose enumerated name is `VMTOOLSD`
matches `vmtoolsd` and yields `SignalDetected`, while `vmtoolsd2` and
`VMTOOLSD.EXE` do not match. -/
theorem denylist_match_case_insensitive_exact (n m : String)
    (hnm : pyLower n = pyLower m) :
    is_suspicious (.ok n) = is_suspicious (.ok m) ∧
    is_suspicious (.ok "VMTOOLSD") = true ∧
    is_suspicious (.ok "vmtoolsd2") = false ∧
    is_suspicious (.ok "VMTOOLSD.EXE") = false ∧
    detect_suspicious_processes hVmtoolsd = .ok true := by
  exact ⟨by simp [is_suspicious, hnm], by decide, by decide, by decide, by decide⟩

/-- C4 amended-theorem witness: two case variants of the same name agree. -/
theorem denylist_match_witness :
    is_suspicious (.ok "VmToolsD") = is_suspicious (.ok "VMTOOLSD") :=
  (denylist_match_case_insensitive_exact "VmToolsD" "VMTOOLSD" (by decide)).1

/-- C5: the per-process comparison converts its own failures (process gone,
access denied) to not-matched, the scanner probe never raises, and it
reports `SignalDetected` iff some successfully inspected process has a
lowercased name in the denylist. -/
theorem scanner_failure_containment (h : Host) :
    (∀ e : PsErr, is_suspicious (.error e) = false) ∧
    (∃ b, detect_suspicious_processes h = .ok b) ∧
    (detect_suspicious_processes h = .ok true ↔
      ∃ n : String, (Except.ok n) ∈ h.processNames ∧
        suspicious_processes.contains (pyLower n) = true) := by
  refine ⟨fun e => rfl, ⟨_, rfl⟩, ?_⟩
  simp only [detect_suspicious_processes, Except.ok.injEq, List.any_eq_true]
  constructor
  · rintro ⟨entry, hmem, hsus⟩
    cases entry with
    | ok n => exact ⟨n, hmem, hsus⟩
    | error e => simp [is_suspicious] at hsus
  · rintro ⟨n, hmem, hsus⟩
    exact ⟨.ok n, hmem, hsus⟩

/-- C6: the timing probe's loop count is 1,000,000 and its threshold is 0.5;
it signals iff the measured duration exceeds 0.5, and in particular a
duration of 0.001 yields `NoSignal`. -/
theorem timing_probe_threshold (h : Host) :
    timingIterations = 1000000 ∧ timingThreshold = 1/2 ∧
    (anti_timing_check h = .ok true ↔ h.timingElapsed > 1/2) ∧
    (h.timingElapsed = 1/1000 → anti_timing_check h = .ok false) := by
  have ht : timingThreshold = 1/2 := by
    norm_num [timingThreshold, Rat.mkRat_eq_div]
  refine ⟨rfl, ht, ?_, ?_⟩
  · simp [anti_timing_check, ht]
  · intro hel
    have hnot : ¬ (h.timingElapsed > timingThreshold) := by
      rw [hel, ht]
      norm_num
    simp [anti_timing_check, hnot]

/-- C6 witness at the host whose loop completes in 0.001 time units. -/
theorem timing_probe_threshold_witness : anti_timing_check hFast = .ok false :=
  (timing_probe_threshold hFast).2.2.2 (by norm_num [hFast, baseHost, Rat.mkRat_eq_div])

/-- C7: on host states where every probe returns a result, the verdict is
the monotone disjunction of the probe results — any probe returning `true`
forces the verdict `true`, all probes returning `false` forces `false` —
and aggregating an empty probe list yields `false`. -/
theorem verdict_monotone_or (h : Host)
    (hok : ∀ p : ProbeId, ∃ b, probeOf p h = .ok b) :
    ((∃ p : ProbeId, probeOf p h = .ok true) → detect h = .ok true) ∧
    ((∀ p : ProbeId, probeOf p h = .ok false) → detect h = .ok false) ∧
    detectOn h [] = .ok false := by
  refine ⟨?_, ?_, rfl⟩
  · rintro ⟨p, hp⟩
    rw [detect_of_ok h hok]
    have hany : probeOrder.any (probeVal h) = true :=
      List.any_eq_true.mpr ⟨p, mem_probeOrder p, by simp [probeVal, hp]⟩
    rw [hany]
  · intro hall
    rw [detect_of_ok h hok]
    have hany : probeOrder.any (probeVal h) = false :=
      List.any_eq_false.mpr (fun p _ => by simp [probeVal, hall p])
    rw [hany]

/-- C7 witness: one denylisted process forces the verdict `true`. -/
theorem verdict_monotone_or_witness : detect hDetected = .ok true :=
  (verdict_monotone_or hDetected
      (fun p => ⟨probeVal hDetected p, by cases p <;> decide⟩)).1
    ⟨.suspiciousProcs, by decide⟩

/-- C8: `detect()` is a function of the host state alone — in particular the
verdict does not depend on the nondeterministic completion order of the
concurrent per-process comparisons, so repeated calls against the same
unchanged host state return the same verdict. -/
theorem detect_schedule_independent (h : Host)
    (c₁ c₂ : List (Except PsErr String))
    (h₁ : c₁.Perm h.processNames) (h₂ : c₂.Perm h.processNames) :
    detect { h with processNames := c₁ } = detect { h with processNames := c₂ } := by
  have hp : c₁.Perm c₂ := h₁.trans h₂.symm
  have key : ∀ p : ProbeId,
      probeOf p { h with processNames := c₁ } =
        probeOf p { h with processNames := c₂ } := by
    intro p
    cases p
    case suspiciousProcs =>
      simp only [probeOf, detect_suspicious_processes]
      rw [any_of_perm is_suspicious hp]
    all_goals rfl
  have hrun : ∀ l : List ProbeId,
      runProbes { h with processNames := c₁ } l =
        runProbes { h with processNames := c₂ } l := by
    intro l
    induction l with
    | nil => rfl
    | cons p ps ih => simp only [runProbes, key p, ih]
  simp only [detect, detectOn, hrun probeOrder]

/-- C8 witness: two completion orders of the same two-process table. -/
theorem detect_schedule_independent_witness :
    detect { hTwoProcs with processNames := twoProcsSwapped } =
      detect { hTwoProcs with processNames := twoProcsInOrder } :=
  detect_schedule_independent hTwoProcs twoProcsSwapped twoProcsInOrder
    (List.Perm.swap (Except.ok "alpha") (Except.ok "beta") []) (List.Perm.refl _)

/-- C9: the probe results consult the spawn interface only at timeout value
3 (changing its behavior at any other timeout changes no probe), and when
every helper exceeds that window the subprocess-based probes return
`NoSignal` while `detect()` still completes with a verdict. -/
theorem subprocess_timeout_bound (h : Host)
    (ht : ∀ c : List String, h.spawn c 3 = .err .timeoutExpired) :
    check_vm_hardware h = .ok false ∧
    check_mac_address h = .ok false ∧
    (h.system ≠ "Linux" → check_cpu_features h = .ok false) ∧
    (h.system ≠ "Windows" → check_hypervisor h = .ok false) ∧
    (∀ s₁ s₂ : List String → Nat → SpawnResult, (∀ c, s₁ c 3 = s₂ c 3) →
      ∀ p : ProbeId, probeOf p { h with spawn := s₁ } = probeOf p { h with spawn := s₂ }) ∧
    (h.cpuinfoLines ≠ .error .permissionError → ∃ b, detect h = .ok b) := by
  refine ⟨?_, ?_, ?_, ?_, ?_, ?_⟩
  · by_cases hw : h.system = "Windows"
    · simp [check_vm_hardware, hw, ht]
    · by_cases hd : h.system = "Darwin" <;> simp [check_vm_hardware, hw, hd, ht]
  · simp [check_mac_address, ht]
  · intro hl
    by_cases hd : h.system = "Darwin" <;> simp [check_cpu_features, hl, hd, ht]
  · intro hw
    by_cases hd : h.system = "Darwin" <;> simp [check_hypervisor, hw, hd, ht]
  · intro s₁ s₂ hss p
    cases p
    case vmHardware => simp only [probeOf, check_vm_hardware, hss]
    case macAddress => simp only [probeOf, check_mac_address, hss]
    case cpuFeatures => simp only [probeOf, check_cpu_features, hss]
    case hypervisor => simp only [probeOf, check_hypervisor, hss]
    all_goals rfl
  · intro hc
    have hok := probes_total h (fun c => by rw [ht c]; decide) hc
    exact ⟨probeOrder.any (probeVal h), detect_of_ok h hok⟩

/-- C9 witness at the host where every helper spawn times out. -/
theorem subprocess_timeout_bound_witness :
    check_vm_hardware hTimeoutAll = .ok false :=
  (subprocess_timeout_bound hTimeoutAll (fun _ => rfl)).1

/-- C10 counterexample: the all-digit OUI `00:05:69` contains no letters, so
output rendering such a VMware MAC in lowercase hex is its own lowercase
rendering and still produces a signal — lowercase output does not in
general suppress the signal. -/
theorem digit_oui_lowercase_signals :
    pyLower macOutDigits = macOutDigits ∧
    check_mac_address hMacDigits = .ok true ∧
    detect hMacDigits = .ok true := by
  exact ⟨by decide, by decide, by decide⟩

/-- C10 (amended): the probe signals iff the network-tool output contains
one of the six OUI literals, matched case-sensitively: output with no
uppercase characters can never contain the letter-bearing prefixes
(`00:0C:29`, `00:1C:14`, `00:03:FF`) — so e.g. a lowercase `00:0c:29`
rendering never signals — while the all-digit prefixes are unaffected by
lowercasing. -/
theorem mac_matching_case_sensitive (h : Host) (out : String)
    (hsp : h.spawn [if h.system = "Windows" then "getmac" else "ifconfig"] 3 = .ok out) :
    check_mac_address h = .ok (macOuiList.any (fun pre => strHasSub out pre)) ∧
    ((∀ c ∈ out.data, c.isUpper = false) →
      strHasSub out "00:0C:29" = false ∧ strHasSub out "00:1C:14" = false ∧
      strHasSub out "00:03:FF" = false) ∧
    check_mac_address hMacLower = .ok false ∧
    check_mac_address hMacUpper = .ok true := by
  refine ⟨by simp [check_mac_address, hsp], ?_, by decide, by decide⟩
  intro hlow
  have key : ∀ sub : String, (∃ c, c ∈ sub.data ∧ c.isUpper = true) →
      strHasSub out sub = false := by
    rintro sub ⟨c, hcmem, hcup⟩
    cases hB : strHasSub out sub with
    | false => rfl
    | true =>
      have hcin := hasSub_mem out sub hB c hcmem
      have hlc := hlow c hcin
      rw [hcup] at hlc
      cases hlc
  exact ⟨key _ ⟨'C', by decide, by decide⟩, key _ ⟨'C', by decide, by decide⟩,
    key _ ⟨'F', by decide, by decide⟩⟩

/-- C10 amended-theorem witness at the host printing the uppercase OUI. -/
theorem mac_matching_case_sensitive_witness :
    check_mac_address hMacUpper = .ok true :=
  (mac_matching_case_sensitive hMacLower macOutLower (by decide)).2.2.2

end VPD
